import Mathlib

/-! CodeLearn backend: authentication handlers

A shallow embedding of `controllers/auth.go`, `utils/password.go` and the
`users` table of `database.go`.

* The relational store is a list of rows plus the AUTOINCREMENT counter; the
  three SQL statements on `users` that the handlers issue are functions on it,
  with the `UNIQUE` constraints of `createTables` checked by the store.
* External libraries (bcrypt, the JWT signer, the e-mail validator, the text of
  binding errors) and `utils.GenerateTokens` (defined outside the files
  embedded here) are fields of `Env`.
* A handler returns its HTTP response, the store after the call and the ordered
  list of effects it performed.
-/

namespace CodeLearn

/-! ## Data model -/

/-- Instants, in nanoseconds since the Unix epoch (Go `time.Time`). -/
abbrev Time := Int

/-- The zero value of `time.Time` (January 1, year 1, 00:00 UTC). -/
def zeroTime : Time := -62135596800 * 1000000000

/-- Go struct `User` (`database.go`); `Password` carries the tag `json:"-"`. -/
structure User where
  ID : Int
  Username : String
  Email : String
  Password : String
  CreatedAt : Time
  UpdatedAt : Time
deriving DecidableEq, Repr

/-- One row of table `users` (`createTables`). -/
structure UserRow where
  id : Int
  username : String
  email : String
  password : String
  created_at : Time
  updated_at : Time
deriving DecidableEq, Repr

/-- The store: the rows of `users` in rowid order and the AUTOINCREMENT
counter kept for the table (largest rowid ever handed out). -/
structure DB where
  users : List UserRow
  seq : Int
deriving DecidableEq, Repr

/-- The store right after `createTables` on a fresh database file. -/
def DB.empty : DB := ⟨[], 0⟩

/-- Errors a `database/sql` call can return. -/
inductive SqlErr where
  | ErrNoRows
  | constraint
  | full
  | driver
deriving DecidableEq, Repr

/-! ## SQL statements on `users` -/

/-- Largest rowid present in the table (0 when empty). -/
def DB.maxRowid (db : DB) : Int :=
  db.users.foldr (fun r m => max r.id m) 0

/-- The largest rowid SQLite can store, 2^63 - 1. -/
def MAX_ROWID : Int := 9223372036854775807

/-- The rowid AUTOINCREMENT assigns to the next inserted row: one more than
the largest rowid the table has ever held, and none once the largest possible
rowid has been used. -/
def DB.nextRowid (db : DB) : Option Int :=
  if max db.seq db.maxRowid < MAX_ROWID then some (max db.seq db.maxRowid + 1) else none

/-- `SELECT id FROM users WHERE username = ? OR email = ?`, first row. -/
def DB.selectIdByUsernameOrEmail (db : DB) (username email : String) : Option Int :=
  (db.users.find? (fun r => decide (r.username = username ∨ r.email = email))).map (fun r => r.id)

/-- `SELECT id, username, email, password, created_at, updated_at FROM users
WHERE username = ?`, first row. -/
def DB.selectByUsername (db : DB) (username : String) : Option UserRow :=
  db.users.find? (fun r => decide (r.username = username))

/-- `SELECT id, username, email, created_at, updated_at FROM users WHERE id = ?`,
first row. -/
def DB.selectById (db : DB) (id : Int) : Option UserRow :=
  db.users.find? (fun r => decide (r.id = id))

/-- `INSERT INTO users (username, email, password) VALUES (?, ?, ?)`.
The statement fails with SQLITE_FULL when AUTOINCREMENT has no rowid left.
`username` and `email` are `UNIQUE`: the statement aborts when a row already
holds either value. Otherwise the row gets the next rowid and both timestamps
default to the store's `CURRENT_TIMESTAMP`. Returns `LastInsertId`. -/
def DB.insertUser (db : DB) (now : Time) (username email password : String) :
    Except SqlErr (Int × DB) :=
  match db.nextRowid with
  | none => .error .full
  | some id =>
    if ∃ r ∈ db.users, r.username = username ∨ r.email = email then
      .error .constraint
    else
      .ok (id, ⟨db.users ++ [⟨id, username, email, password, now, now⟩], id⟩)

/-- `UPDATE users SET email = ?, updated_at = CURRENT_TIMESTAMP WHERE id = ?`.
When a row is selected and some row with another id already holds the new
e-mail, the `UNIQUE` constraint aborts the statement. With no row selected the
statement succeeds and changes nothing. -/
def DB.updateEmail (db : DB) (now : Time) (email : String) (id : Int) : Except SqlErr DB :=
  if (∃ r ∈ db.users, r.id = id) ∧ (∃ r ∈ db.users, r.id ≠ id ∧ r.email = email) then
    .error .constraint
  else
    .ok ⟨db.users.map (fun r => if r.id = id then
      ⟨r.id, r.username, email, r.password, r.created_at, now⟩ else r), db.seq⟩

/-- `QueryRow(...).Scan(...)`: a driver failure, `sql.ErrNoRows` when the
query selects nothing, the first row otherwise. -/
def queryRow {α : Type} (fails : Bool) (r : Option α) : Except SqlErr α :=
  if fails then .error .driver
  else match r with
    | none => .error .ErrNoRows
    | some a => .ok a

/-- `Exec(...)`: a driver failure, or the statement's own result. -/
def exec {α : Type} (fails : Bool) (r : Except SqlErr α) : Except SqlErr α :=
  if fails then .error .driver else r

/-- A writing statement issued by some other request. -/
inductive Stmt where
  | insertUser (username email password : String)
  | updateEmail (email : String) (id : Int)
deriving DecidableEq, Repr

/-- The store after one statement of another request; a rejected statement
leaves it as it was. -/
def DB.run (db : DB) (now : Time) : Stmt → DB
  | .insertUser u e p =>
    match db.insertUser now u e p with
    | .ok (_, db1) => db1
    | .error _ => db
  | .updateEmail e id =>
    match db.updateEmail now e id with
    | .ok db1 => db1
    | .error _ => db

/-- The store after a sequence of statements of other requests, each with the
store clock's reading when it ran. -/
def DB.runAll (db : DB) : List (Time × Stmt) → DB
  | [] => db
  | (t, s) :: rest => (db.run t s).runAll rest

/-! ## Requests, binding and responses -/

/-- Go struct `RegisterRequest`. -/
structure RegisterRequest where
  Username : String
  Email : String
  Password : String
deriving DecidableEq, Repr

/-- Go struct `LoginRequest`. -/
structure LoginRequest where
  Username : String
  Password : String
deriving DecidableEq, Repr

/-- A request body. It is `malformed` when `encoding/json` reports an error
for it (not a JSON object, or a member of the target struct with a value that
is not a string). Otherwise it is an object, given by its members with a
string value, in order (key, value); a member whose value is `null` leaves the
struct untouched, like one that is absent, and is not listed. -/
inductive Payload where
  | malformed
  | object (fields : List (String × String))
deriving DecidableEq, Repr

/-- The representative of a character's case-folding class (`foldRune` of
`encoding/json`: the smallest code point of the class), as a code point. The
classes of the ASCII letters are a letter with its other case, and in addition
the Kelvin sign (8490) for `k` and the long s (383) for `s`. Every other
character stands for itself, which is exact for comparisons with ASCII
names. -/
def foldRune (c : Char) : Nat :=
  if c.toNat = 8490 then 75
  else if c.toNat = 383 then 83
  else if 97 ≤ c.toNat ∧ c.toNat ≤ 122 then c.toNat - 32
  else c.toNat

/-- Whether a JSON key selects the struct field tagged `name`: `encoding/json`
takes an exact match and otherwise a match up to case folding. The tags of the
request structs are pairwise different up to case, so a key selects the field
exactly when the two agree up to case folding. -/
def equalFold (key name : String) : Bool :=
  decide (key.data.map foldRune = name.data.map foldRune)

/-- The value decoded into the field tagged `name`. Of several keys that
select the field the last one gives the value; when none does the field keeps
the Go zero value, the empty string. -/
def Payload.field (fields : List (String × String)) (name : String) : String :=
  match fields.reverse.find? (fun kv => equalFold kv.1 name) with
  | some kv => kv.2
  | none => ""

/-- Why `ShouldBindJSON` failed. -/
inductive BindFailure where
  | decode
  | validation (failed : List (String × String))
deriving DecidableEq, Repr

/-- Validator tag `required` on a string: not the zero value. -/
def required (s : String) : Bool := decide (s ≠ "")

/-- Validator tag `min=n` on a string: at least `n` characters. -/
def minLen (n : Nat) (s : String) : Bool := decide (n ≤ s.length)

/-- Validator tag `max=n` on a string: at most `n` characters. -/
def maxLen (n : Nat) (s : String) : Bool := decide (s.length ≤ n)

/-- The tags of one field are tried in order; the first that fails is
reported. -/
def checkField (field : String) (rules : List (String × Bool)) : List (String × String) :=
  match rules.find? (fun r => !r.2) with
  | some r => [(field, r.1)]
  | none => []

/-- Context values set by the authentication middleware (claims `UserID int`,
`Username string` of the validated token). -/
structure Ctx where
  user_id : Option Int
  username : Option String
deriving DecidableEq, Repr

/-- Go struct `Claims` with the two registered claims the handlers set. -/
structure Claims where
  UserID : Int
  Username : String
  ExpiresAt : Time
  IssuedAt : Time
deriving DecidableEq, Repr

/-- JSON bodies the handlers send. -/
inductive Body where
  | error (msg : String)
  | message (msg : String)
  | auth (token refreshToken : String) (user : User)
  | user (u : User)
  | cli (cliToken : String) (userId : Int) (username : String) (expiresAt : Int)
deriving DecidableEq, Repr

/-- What a handler did besides answering, in order. -/
inductive Effect where
  | query
  | exec
  | hash
  | compare
  | tokens (u : User)
  | signCLI (c : Claims)
deriving DecidableEq, Repr

/-- The result of one handler call. -/
structure Outcome where
  status : Nat
  body : Body
  db : DB
  log : List Effect
deriving DecidableEq, Repr

/-- Collaborators outside this package. `ComparePassword` is `true` exactly
when the Go function returns a nil error. -/
structure Env where
  validEmail : String → Bool
  bindErrText : BindFailure → String
  HashingPassword : String → Except String String
  ComparePassword : String → String → Bool
  GenerateTokens : User → Except String (String × String)
  SignedString : Claims → Except String String

/-- What the store does during one handler call: whether the handler's
lookup or its write fails in the driver, the store clock, and the statements
of other requests that commit between the handler's lookup and its write. -/
structure Sched where
  queryFails : Bool
  execFails : Bool
  storeNow : Time
  between : List (Time × Stmt)

/-- `ShouldBindJSON` into `RegisterRequest`
(`required,min=3,max=50` / `required,email` / `required,min=6`). -/
def bindRegister (env : Env) : Payload → Except BindFailure RegisterRequest
  | .malformed => .error .decode
  | .object fs =>
    let req : RegisterRequest :=
      ⟨Payload.field fs "username", Payload.field fs "email", Payload.field fs "password"⟩
    let failed :=
      checkField "Username" [("required", required req.Username),
        ("min", minLen 3 req.Username), ("max", maxLen 50 req.Username)] ++
      checkField "Email" [("required", required req.Email),
        ("email", env.validEmail req.Email)] ++
      checkField "Password" [("required", required req.Password),
        ("min", minLen 6 req.Password)]
    if failed = [] then .ok req else .error (.validation failed)

/-- `ShouldBindJSON` into `LoginRequest` (`required` / `required`). -/
def bindLogin : Payload → Except BindFailure LoginRequest
  | .malformed => .error .decode
  | .object fs =>
    let req : LoginRequest := ⟨Payload.field fs "username", Payload.field fs "password"⟩
    let failed :=
      checkField "Username" [("required", required req.Username)] ++
      checkField "Password" [("required", required req.Password)]
    if failed = [] then .ok req else .error (.validation failed)

/-- `ShouldBindJSON` into the anonymous struct of `UpdateProfileHandler`
(`required,email`). -/
def bindUpdateProfile (env : Env) : Payload → Except BindFailure String
  | .malformed => .error .decode
  | .object fs =>
    let email := Payload.field fs "email"
    let failed := checkField "Email" [("required", required email),
      ("email", env.validEmail email)]
    if failed = [] then .ok email else .error (.validation failed)

/-! ## Handlers -/

/-- Go `RegisterHandler`. -/
def RegisterHandler (env : Env) (s : Sched) (db : DB) (body : Payload) : Outcome :=
  match bindRegister env body with
  | .error e => ⟨400, .error (env.bindErrText e), db, []⟩
  | .ok req =>
    match queryRow s.queryFails (db.selectIdByUsernameOrEmail req.Username req.Email) with
    | .error .ErrNoRows =>
      match env.HashingPassword req.Password with
      | .error _ => ⟨500, .error "Failed to hash password", db, [.query, .hash]⟩
      | .ok hashedPassword =>
        let db1 := db.runAll s.between
        match exec s.execFails
            (db1.insertUser s.storeNow req.Username req.Email hashedPassword) with
        | .error _ => ⟨500, .error "Failed to create user", db1, [.query, .hash, .exec]⟩
        | .ok (userID, db2) =>
          let user : User := ⟨userID, req.Username, req.Email, "", zeroTime, zeroTime⟩
          match env.GenerateTokens user with
          | .error _ =>
            ⟨500, .error "Failed to generate tokens", db2, [.query, .hash, .exec, .tokens user]⟩
          | .ok (token, refreshToken) =>
            ⟨201, .auth token refreshToken user, db2, [.query, .hash, .exec, .tokens user]⟩
    | _ => ⟨409, .error "Username or email already exists", db, [.query]⟩

/-- Go `LoginHandler`. -/
def LoginHandler (env : Env) (s : Sched) (db : DB) (body : Payload) : Outcome :=
  match bindLogin body with
  | .error e => ⟨400, .error (env.bindErrText e), db, []⟩
  | .ok req =>
    match queryRow s.queryFails (db.selectByUsername req.Username) with
    | .error .ErrNoRows => ⟨401, .error "Invalid credentials", db, [.query]⟩
    | .error _ => ⟨500, .error "Database error", db, [.query]⟩
    | .ok row =>
      let user : User := ⟨row.id, row.username, row.email, "", row.created_at, row.updated_at⟩
      if env.ComparePassword row.password req.Password then
        match env.GenerateTokens user with
        | .error _ =>
          ⟨500, .error "Failed to generate tokens", db, [.query, .compare, .tokens user]⟩
        | .ok (token, refreshToken) =>
          ⟨200, .auth token refreshToken user, db, [.query, .compare, .tokens user]⟩
      else ⟨401, .error "Invalid credentials", db, [.query, .compare]⟩

/-- Go `RefreshTokenHandler`. -/
def RefreshTokenHandler (db : DB) : Outcome :=
  ⟨501, .error "Refresh token not implemented yet", db, []⟩

/-- Go `GetProfileHandler`. -/
def GetProfileHandler (s : Sched) (db : DB) (ctx : Ctx) : Outcome :=
  match ctx.user_id with
  | none => ⟨401, .error "User not found in context", db, []⟩
  | some userID =>
    match queryRow s.queryFails (db.selectById userID) with
    | .error _ => ⟨500, .error "Failed to get user profile", db, [.query]⟩
    | .ok row =>
      ⟨200, .user ⟨row.id, row.username, row.email, "", row.created_at, row.updated_at⟩,
        db, [.query]⟩

/-- Go `UpdateProfileHandler`. -/
def UpdateProfileHandler (env : Env) (s : Sched) (db : DB) (ctx : Ctx) (body : Payload) :
    Outcome :=
  match ctx.user_id with
  | none => ⟨401, .error "User not found in context", db, []⟩
  | some userID =>
    match bindUpdateProfile env body with
    | .error e => ⟨400, .error (env.bindErrText e), db, []⟩
    | .ok email =>
      match exec s.execFails (db.updateEmail s.storeNow email userID) with
      | .error _ => ⟨500, .error "Failed to update profile", db, [.exec]⟩
      | .ok db1 => ⟨200, .message "Profile updated successfully", db1, [.exec]⟩

/-- Go `time.Hour`, in nanoseconds. -/
def hour : Int := 3600 * 1000000000

/-- The CLI token lifetime `30 * 24 * time.Hour`. -/
def cliLifetime : Int := 30 * 24 * hour

/-- Library `jwt.NewNumericDate`: the instant truncated to whole seconds. -/
def NewNumericDate (t : Time) : Time := t - t % 1000000000

/-- Go `Time.Unix`: whole seconds since the Unix epoch. -/
def unix (t : Time) : Int := t / 1000000000

/-- The claims literal of `CLIAuthHandler`. Its fields are evaluated in source
order: `ExpiresAt` takes the handler's first clock reading, `IssuedAt` the
second. -/
def cliClaims (clock : Nat → Time) (userID : Int) (username : String) : Claims :=
  ⟨userID, username, NewNumericDate (clock 0 + cliLifetime), NewNumericDate (clock 1)⟩

/-- Go `CLIAuthHandler`; `clock k` is what `time.Now()` returns to the
handler's reading number `k`. -/
def CLIAuthHandler (env : Env) (clock : Nat → Time) (db : DB) (ctx : Ctx) : Outcome :=
  match ctx.user_id with
  | none => ⟨401, .error "User not found in context", db, []⟩
  | some userID =>
    match ctx.username with
    | none => ⟨401, .error "Username not found in context", db, []⟩
    | some username =>
      let claims := cliClaims clock userID username
      match env.SignedString claims with
      | .error _ => ⟨500, .error "Failed to generate CLI token", db, [.signCLI claims]⟩
      | .ok cliTokenString =>
        ⟨200, .cli cliTokenString userID username (unix (clock 2 + cliLifetime)), db,
          [.signCLI claims]⟩

/-! ## Serialised users and the routes of the `auth` group -/

/-- A JSON value of the kinds a serialised `User` holds. -/
inductive JsonValue where
  | number (n : Int)
  | string (s : String)
  | time (t : Time)
deriving DecidableEq, Repr

/-- The object `encoding/json` writes for a `User`, key by key in field
order, following the struct tags: `Password` is tagged `json:"-"` and is
skipped. -/
def marshalUser (u : User) : List (String × JsonValue) :=
  [("id", .number u.ID), ("username", .string u.Username), ("email", .string u.Email),
   ("created_at", .time u.CreatedAt), ("updated_at", .time u.UpdatedAt)]

/-- The routes `SetupRouter` registers in group `/api/v1/auth`; they run
without the authentication middleware. -/
inductive AuthRoute where
  | register
  | login
  | refresh
deriving DecidableEq, Repr

/-- Dispatch of a request to the handler of its `auth` route. -/
def serveAuth (env : Env) (s : Sched) (db : DB) (body : Payload) : AuthRoute → Outcome
  | .register => RegisterHandler env s db body
  | .login => LoginHandler env s db body
  | .refresh => RefreshTokenHandler db

/-! ## Challenges and submissions (`handlers.go`) -/

/-- One row of table `challenges`. -/
structure ChallengeRow where
  id : Int
  title : String
  description : String
  difficulty : String
  language : String
  test_cases : String
  created_at : Time
  updated_at : Time
deriving DecidableEq, Repr

/-- One row of table `submissions`. -/
structure SubmissionRow where
  id : Int
  user_id : Int
  challenge_id : Int
  code : String
  language : String
  status : String
  score : Int
  output : String
  created_at : Time
deriving DecidableEq, Repr

/-- Go struct `Submission`. -/
structure Submission where
  ID : Int
  UserID : Int
  ChallengeID : Int
  Code : String
  Language : String
  Status : String
  Score : Int
  Output : String
  CreatedAt : Time
deriving DecidableEq, Repr

/-- The tables `challenges` and `submissions`, rows in rowid order. -/
structure Tables where
  challenges : List ChallengeRow
  submissions : List SubmissionRow
deriving DecidableEq, Repr

/-- `SELECT test_cases FROM challenges WHERE id = ?`, first row. -/
def Tables.selectTestCases (t : Tables) (id : Int) : Option String :=
  (t.challenges.find? (fun r => decide (r.id = id))).map (fun r => r.test_cases)

/-- `SELECT id, user_id, challenge_id, code, language, status, score, output,
created_at FROM submissions WHERE id = ? AND user_id = ?`, first row. -/
def Tables.selectSubmission (t : Tables) (id userID : Int) : Option SubmissionRow :=
  t.submissions.find? (fun r => decide (r.id = id ∧ r.user_id = userID))

/-- The decoded form of a `[]map[string]string`. -/
abbrev TestCases := List (List (String × String))

/-- Go `processSubmission`. `Unmarshal` is `json.Unmarshal` into a
`[]map[string]string` (`none` for an error), `queryFails` tells whether the
lookup fails in the driver. The result is `.error` when the Go code would stop
with a run-time panic. All quantities are non-negative, so `/` agrees with
Go's truncating division. -/
def processSubmission (Unmarshal : String → Option TestCases) (queryFails : Bool)
    (t : Tables) (code language : String) (challengeID : Int) :
    Except String (String × Int × String) :=
  match queryRow queryFails (t.selectTestCases challengeID) with
  | .error _ => .ok ("failed", 0, "Error: Could not load test cases")
  | .ok testCasesJSON =>
    match Unmarshal testCasesJSON with
    | none => .ok ("failed", 0, "Error: Invalid test cases format")
    | some testCases =>
      let passedTests : Int := testCases.length
      let totalTests : Int := testCases.length
      if passedTests = totalTests then
        .ok ("passed", 100, "All tests passed! Great job!")
      else if totalTests = 0 then
        .error "runtime error: integer divide by zero"
      else
        .ok ("failed", (passedTests * 100) / totalTests, "Some tests failed. Keep trying!")

/-- The value of a run of decimal digits appended to `n`; `none` when a
character is not a digit. -/
def parseDigits : List Char → Nat → Option Nat
  | [], n => some n
  | c :: cs, n => if c.isDigit then parseDigits cs (n * 10 + (c.toNat - 48)) else none

/-- Go `strconv.Atoi` on a 64-bit platform: an optional sign followed by at
least one decimal digit, the value within the range of `int`. -/
def Atoi (s : String) : Option Int :=
  match s.data with
  | [] => none
  | '-' :: ds =>
    if ds = [] then none
    else (parseDigits ds 0).bind (fun n => if n ≤ 2 ^ 63 then some (-(n : Int)) else none)
  | '+' :: ds =>
    if ds = [] then none
    else (parseDigits ds 0).bind (fun n => if n < 2 ^ 63 then some (n : Int) else none)
  | ds => (parseDigits ds 0).bind (fun n => if n < 2 ^ 63 then some (n : Int) else none)

/-- JSON bodies `GetSubmissionHandler` sends. -/
inductive SubmissionBody where
  | error (msg : String)
  | submission (s : Submission)
deriving DecidableEq, Repr

/-- The result of one call of a read-only handler of `handlers.go`. -/
structure Reply where
  status : Nat
  body : SubmissionBody
  log : List Effect
deriving DecidableEq, Repr

/-- Go `GetSubmissionHandler`; `idParam` is the path parameter `id`. -/
def GetSubmissionHandler (queryFails : Bool) (t : Tables) (ctx : Ctx) (idParam : String) :
    Reply :=
  match Atoi idParam with
  | none => ⟨400, .error "Invalid submission ID", []⟩
  | some id =>
    match ctx.user_id with
    | none => ⟨401, .error "User not found in context", []⟩
    | some userID =>
      match queryRow queryFails (t.selectSubmission id userID) with
      | .error .ErrNoRows => ⟨404, .error "Submission not found", [.query]⟩
      | .error _ => ⟨500, .error "Failed to fetch submission", [.query]⟩
      | .ok row =>
        ⟨200, .submission ⟨row.id, row.user_id, row.challenge_id, row.code, row.language,
          row.status, row.score, row.output, row.created_at⟩, [.query]⟩

/-! ## Call sequences and store invariants -/

/-- The shape `ShouldBindJSON` accepts for a registration. -/
def validRegister (env : Env) (u e p : String) : Bool :=
  required u && minLen 3 u && maxLen 50 u && required e && env.validEmail e &&
    required p && minLen 6 p

/-- One call of a handler that writes to `users`, with everything the call
depends on. -/
inductive Call where
  | register (env : Env) (s : Sched) (body : Payload)
  | updateProfile (env : Env) (s : Sched) (ctx : Ctx) (body : Payload)

/-- The store after one call. -/
def Call.apply (db : DB) : Call → DB
  | .register env s body => (RegisterHandler env s db body).db
  | .updateProfile env s ctx body => (UpdateProfileHandler env s db ctx body).db

/-- The store after a sequence of calls, first to last. -/
def runCalls (db : DB) (calls : List Call) : DB :=
  calls.foldl Call.apply db

/-- No two rows share an id, a username or an e-mail. -/
def DB.Distinct (db : DB) : Prop :=
  db.users.Pairwise (fun a b => a.id ≠ b.id ∧ a.username ≠ b.username ∧ a.email ≠ b.email)

/-- Every row of `db` is still in `db2` with its id, username and password
hash. -/
def DB.Kept (db db2 : DB) : Prop :=
  ∀ r ∈ db.users, ∃ r2 ∈ db2.users,
    r2.id = r.id ∧ r2.username = r.username ∧ r2.password = r.password

/-! ## Sample data -/

/-- A concrete set of collaborators. -/
def sampleEnv : Env where
  validEmail := fun s => decide ('@' ∈ s.data)
  bindErrText := fun _ => "invalid request"
  HashingPassword := fun p => .ok ("$2a$10$" ++ p)
  ComparePassword := fun h p => decide (h = "$2a$10$" ++ p)
  GenerateTokens := fun u => .ok ("access:" ++ u.Username, "refresh:" ++ u.Username)
  SignedString := fun c => .ok ("cli:" ++ c.Username)

/-- A store that never fails and no concurrent requests. -/
def quietSched : Sched := ⟨false, false, 1700000000000000000, []⟩

/-- A run in which the handler's lookup fails in the driver. -/
def lookupDownSched : Sched := ⟨true, false, 1700000000000000000, []⟩

/-- A run in which another request registers "alice" between this request's
lookup and its insert. -/
def raceSched : Sched :=
  ⟨false, false, 1700000000000000000,
    [(1699999999000000000, .insertUser "alice" "alice@x.com" "$2a$10$secret1")]⟩

/-- The store after "alice" registered. -/
def aliceDB : DB :=
  ⟨[⟨1, "alice", "alice@x.com", "$2a$10$secret1", 1600000000000000000, 1600000000000000000⟩], 1⟩

/-- The session context of "alice". -/
def aliceCtx : Ctx := ⟨some 1, some "alice"⟩

/-- The registration body of "alice". -/
def aliceBody : Payload :=
  .object [("username", "alice"), ("email", "alice@x.com"), ("password", "secret1")]

/-- The login body of "alice" with the password she registered. -/
def aliceLoginBody : Payload := .object [("username", "alice"), ("password", "secret1")]

/-- The login body of "alice" with a wrong password. -/
def aliceWrongBody : Payload := .object [("username", "alice"), ("password", "wrong")]

/-- The registration body of "bob" using the e-mail address of "alice". -/
def bobBody : Payload :=
  .object [("username", "bob"), ("email", "alice@x.com"), ("password", "secret2")]

/-- The login body of a user that was never registered. -/
def carolBody : Payload := .object [("username", "carol"), ("password", "secret3")]

/-- A registration body whose username is too short. -/
def shortNameBody : Payload :=
  .object [("username", "al"), ("email", "al@x.com"), ("password", "secret1")]

/-- A clock that advances by one second between successive readings. -/
def tickingClock (k : Nat) : Time := 1700000000000000000 + (k : Int) * 1000000000

/-- A decoder that knows the test cases of the sample challenges. -/
def sampleUnmarshal (s : String) : Option TestCases :=
  if s = "[]" then some []
  else if s = "[\x7b\"input\": \"0\", \"expected\": \"0\"\x7d]" then
    some [[("input", "0"), ("expected", "0")]]
  else none

/-- Two challenges (one without test cases) and two submissions, one of
"alice" (user 1) and one of user 2. -/
def sampleTables : Tables :=
  ⟨[⟨1, "Fibonacci Sequence", "Write a function to generate the nth Fibonacci number.",
      "Easy", "javascript", "[\x7b\"input\": \"0\", \"expected\": \"0\"\x7d]",
      1600000000000000000, 1600000000000000000⟩,
    ⟨2, "Empty", "A challenge without test cases.", "Easy", "go", "[]",
      1600000000000000000, 1600000000000000000⟩],
   [⟨1, 1, 1, "return 0", "javascript", "passed", 100, "All tests passed! Great job!",
      1650000000000000000⟩,
    ⟨2, 2, 1, "return 1", "javascript", "passed", 100, "All tests passed! Great job!",
      1660000000000000000⟩]⟩

/-! ## Lemmas on binding and lookups -/

theorem exec_ok {α : Type} (fails : Bool) (r : Except SqlErr α) (a : α)
    (h : exec fails r = .ok a) : r = .ok a := by
  cases fails
  · simpa [exec] using h
  · simp [exec] at h

theorem queryRow_ne_noRows_of_some {α : Type} (fails : Bool) (a : α) :
    queryRow fails (some a) ≠ .error .ErrNoRows := by
  cases fails <;> simp [queryRow]

theorem selectIdByUsernameOrEmail_isSome (db : DB) (u e : String)
    (h : ∃ r ∈ db.users, r.username = u ∨ r.email = e) :
    ∃ id, db.selectIdByUsernameOrEmail u e = some id := by
  obtain ⟨r, hr, hre⟩ := h
  unfold DB.selectIdByUsernameOrEmail
  cases hf : db.users.find? (fun r => decide (r.username = u ∨ r.email = e)) with
  | some r0 => exact ⟨r0.id, rfl⟩
  | none =>
    rw [List.find?_eq_none] at hf
    have := hf r hr
    simp at this
    rcases hre with h1 | h1
    · exact absurd h1 this.1
    · exact absurd h1 this.2

/-! ## Registration conflicts -/

/-- C1: when some existing user has the requested username or the requested
e-mail, `RegisterHandler` answers 409 "Username or email already exists",
whichever field collided, performs only the lookup and leaves the store as it
was. -/
theorem register_conflict_409 (env : Env) (s : Sched) (db : DB) (body : Payload)
    (req : RegisterRequest) (hbind : bindRegister env body = .ok req)
    (hcol : ∃ r ∈ db.users, r.username = req.Username ∨ r.email = req.Email) :
    RegisterHandler env s db body =
      ⟨409, .error "Username or email already exists", db, [.query]⟩ := by
  obtain ⟨id, hid⟩ := selectIdByUsernameOrEmail_isSome db req.Username req.Email hcol
  have hne := queryRow_ne_noRows_of_some s.queryFails id
  unfold RegisterHandler
  rw [hbind]
  cases hq : queryRow s.queryFails (some id) with
  | ok v => simp [hid, hq]
  | error e =>
    cases e with
    | ErrNoRows => exact absurd hq hne
    | constraint => simp [hid, hq]
    | full => simp [hid, hq]
    | driver => simp [hid, hq]

theorem register_conflict_409_witness :
    bindRegister sampleEnv bobBody = .ok ⟨"bob", "alice@x.com", "secret2"⟩ ∧
    (∃ r ∈ aliceDB.users, r.username = "bob" ∨ r.email = "alice@x.com") ∧
    RegisterHandler sampleEnv quietSched aliceDB bobBody =
      ⟨409, .error "Username or email already exists", aliceDB, [.query]⟩ :=
  ⟨by rfl, by decide,
    register_conflict_409 sampleEnv quietSched aliceDB bobBody ⟨"bob", "alice@x.com", "secret2"⟩
      (by rfl) (by decide)⟩

/-! ## Login failures -/

theorem selectByUsername_eq_none (db : DB) (u : String)
    (h : ∀ r ∈ db.users, r.username ≠ u) : db.selectByUsername u = none := by
  unfold DB.selectByUsername
  rw [List.find?_eq_none]
  intro r hr
  simpa using h r hr

theorem selectByUsername_some (db : DB) (u : String) (row : UserRow)
    (h : db.selectByUsername u = some row) : row ∈ db.users ∧ row.username = u := by
  unfold DB.selectByUsername at h
  refine ⟨List.mem_of_find?_eq_some h, ?_⟩
  simpa using List.find?_some h

theorem selectByUsername_isSome (db : DB) (u : String)
    (h : ∃ r ∈ db.users, r.username = u) : ∃ row, db.selectByUsername u = some row := by
  cases hf : db.selectByUsername u with
  | some row => exact ⟨row, rfl⟩
  | none =>
    obtain ⟨r, hr, hu⟩ := h
    unfold DB.selectByUsername at hf
    rw [List.find?_eq_none] at hf
    have := hf r hr
    simp at this
    exact absurd hu this

/-- C2: with a bound login request and a lookup that does not fail in the
driver, the answer when the username exists but the password does not verify
against the stored hash is status 401 with body error "Invalid credentials",
and so is the answer when no user has the requested username: the two answers
are identical in status and body. -/
theorem login_wrong_password_like_unknown_user (env : Env) (s s2 : Sched) (db db2 : DB)
    (body body2 : Payload) (req req2 : LoginRequest)
    (hs : s.queryFails = false) (hs2 : s2.queryFails = false)
    (hbind : bindLogin body = .ok req) (hbind2 : bindLogin body2 = .ok req2)
    (hexists : ∃ r ∈ db.users, r.username = req.Username)
    (hbad : ∀ r ∈ db.users, r.username = req.Username →
      env.ComparePassword r.password req.Password = false)
    (hnone : ∀ r ∈ db2.users, r.username ≠ req2.Username) :
    (LoginHandler env s db body).status = 401 ∧
    (LoginHandler env s db body).body = .error "Invalid credentials" ∧
    (LoginHandler env s2 db2 body2).status = (LoginHandler env s db body).status ∧
    (LoginHandler env s2 db2 body2).body = (LoginHandler env s db body).body := by
  obtain ⟨row, hrow⟩ := selectByUsername_isSome db req.Username hexists
  obtain ⟨hmem, hname⟩ := selectByUsername_some db req.Username row hrow
  have hcmp := hbad row hmem hname
  have h2 := selectByUsername_eq_none db2 req2.Username hnone
  have e1 : LoginHandler env s db body =
      ⟨401, .error "Invalid credentials", db, [.query, .compare]⟩ := by
    simp [LoginHandler, hbind, hrow, queryRow, hs, hcmp]
  have e2 : LoginHandler env s2 db2 body2 =
      ⟨401, .error "Invalid credentials", db2, [.query]⟩ := by
    simp [LoginHandler, hbind2, h2, queryRow, hs2]
  rw [e1, e2]
  exact ⟨rfl, rfl, rfl, rfl⟩

theorem login_wrong_password_like_unknown_user_witness :
    (LoginHandler sampleEnv quietSched aliceDB aliceWrongBody).status = 401 ∧
    (LoginHandler sampleEnv quietSched aliceDB aliceWrongBody).body =
      .error "Invalid credentials" ∧
    (LoginHandler sampleEnv quietSched aliceDB carolBody).status =
      (LoginHandler sampleEnv quietSched aliceDB aliceWrongBody).status ∧
    (LoginHandler sampleEnv quietSched aliceDB carolBody).body =
      (LoginHandler sampleEnv quietSched aliceDB aliceWrongBody).body :=
  login_wrong_password_like_unknown_user sampleEnv quietSched quietSched aliceDB aliceDB
    aliceWrongBody carolBody ⟨"alice", "wrong"⟩ ⟨"carol", "secret3"⟩ rfl rfl (by rfl) (by rfl)
    (by decide) (by decide) (by decide)

/-! ## Validation of registration requests -/

theorem register_checks_nil_iff (b1 b2 b3 b4 b5 b6 b7 : Bool) :
    (checkField "Username" [("required", b1), ("min", b2), ("max", b3)] ++
      checkField "Email" [("required", b4), ("email", b5)] ++
      checkField "Password" [("required", b6), ("min", b7)] = []) ↔
    (b1 && b2 && b3 && b4 && b5 && b6 && b7) = true := by
  cases b1 <;> cases b2 <;> cases b3 <;> cases b4 <;> cases b5 <;> cases b6 <;> cases b7 <;>
    simp [checkField]

theorem bindRegister_ok (env : Env) (fs : List (String × String))
    (h : validRegister env (Payload.field fs "username") (Payload.field fs "email")
      (Payload.field fs "password") = true) :
    bindRegister env (.object fs) =
      .ok ⟨Payload.field fs "username", Payload.field fs "email",
        Payload.field fs "password"⟩ := by
  simp only [bindRegister]
  rw [if_pos]
  exact (register_checks_nil_iff _ _ _ _ _ _ _).2 h

theorem bindRegister_error (env : Env) (fs : List (String × String))
    (h : validRegister env (Payload.field fs "username") (Payload.field fs "email")
      (Payload.field fs "password") = false) :
    ∃ e, bindRegister env (.object fs) = .error e := by
  simp only [bindRegister]
  rw [if_neg]
  · exact ⟨_, rfl⟩
  · intro hnil
    have := (register_checks_nil_iff _ _ _ _ _ _ _).1 hnil
    unfold validRegister at h
    rw [h] at this
    exact Bool.noConfusion this

theorem field_eq_empty_of_absent (fs : List (String × String)) (name : String)
    (h : ∀ kv ∈ fs, equalFold kv.1 name = false) : Payload.field fs name = "" := by
  unfold Payload.field
  have : fs.reverse.find? (fun kv => equalFold kv.1 name) = none := by
    rw [List.find?_eq_none]
    intro kv hkv
    simp [h kv (List.mem_reverse.1 hkv)]
  rw [this]

theorem register_bind_error_400 (env : Env) (s : Sched) (db : DB) (body : Payload)
    (e : BindFailure) (h : bindRegister env body = .error e) :
    RegisterHandler env s db body = ⟨400, .error (env.bindErrText e), db, []⟩ := by
  simp [RegisterHandler, h]

/-- Keys are matched up to case: a body keyed `Username`, `EMAIL`, `PassWord`
(and one using the long s) binds like the lower-case one. -/
theorem bindRegister_mixed_case :
    bindRegister sampleEnv
      (.object [("Username", "dave"), ("EMAIL", "dave@x.com"), ("PassWord", "secret1")]) =
      .ok ⟨"dave", "dave@x.com", "secret1"⟩ ∧
    Payload.field [("uſername", "dave")] "username" = "dave" := by
  constructor <;> rfl

/-- C7: a registration body that cannot be decoded, or whose username has
fewer than 3 or more than 50 characters, or whose password has fewer than 6
characters, or whose e-mail the validator rejects, or that lacks one of the
three fields (no key selects it, not even up to case), is answered 400 with no
effect at all: no lookup, no hashing, no insert, and the store is returned as
it was. -/
theorem register_invalid_400 (env : Env) (s : Sched) (db : DB) (body : Payload)
    (h : body = .malformed ∨ ∃ fs, body = .object fs ∧
      ((Payload.field fs "username").length < 3 ∨
       50 < (Payload.field fs "username").length ∨
       (Payload.field fs "password").length < 6 ∨
       env.validEmail (Payload.field fs "email") = false ∨
       (∀ kv ∈ fs, equalFold kv.1 "username" = false) ∨
       (∀ kv ∈ fs, equalFold kv.1 "email" = false) ∨
       (∀ kv ∈ fs, equalFold kv.1 "password" = false))) :
    (RegisterHandler env s db body).status = 400 ∧
    (RegisterHandler env s db body).db = db ∧
    (RegisterHandler env s db body).log = [] := by
  have key : ∃ e, bindRegister env body = .error e := by
    rcases h with rfl | ⟨fs, rfl, h⟩
    · exact ⟨.decode, rfl⟩
    · have hv : validRegister env (Payload.field fs "username") (Payload.field fs "email")
          (Payload.field fs "password") = false := by
        rcases h with h | h | h | h | h | h | h
        · have : minLen 3 (Payload.field fs "username") = false := by
            simp [minLen]; omega
          simp [validRegister, this]
        · have : maxLen 50 (Payload.field fs "username") = false := by
            simp [maxLen]; omega
          simp [validRegister, this]
        · have : minLen 6 (Payload.field fs "password") = false := by
            simp [minLen]; omega
          simp [validRegister, this]
        · simp [validRegister, h]
        · simp [validRegister, required, field_eq_empty_of_absent fs "username" h]
        · simp [validRegister, required, field_eq_empty_of_absent fs "email" h]
        · simp [validRegister, required, field_eq_empty_of_absent fs "password" h]
      exact bindRegister_error env fs hv
  obtain ⟨e, he⟩ := key
  rw [register_bind_error_400 env s db body e he]
  exact ⟨rfl, rfl, rfl⟩

theorem register_invalid_400_witness :
    (RegisterHandler sampleEnv quietSched aliceDB shortNameBody).status = 400 ∧
    (RegisterHandler sampleEnv quietSched aliceDB shortNameBody).db = aliceDB ∧
    (RegisterHandler sampleEnv quietSched aliceDB shortNameBody).log = [] :=
  register_invalid_400 sampleEnv quietSched aliceDB shortNameBody
    (Or.inr ⟨[("username", "al"), ("email", "al@x.com"), ("password", "secret1")], rfl,
      Or.inl (by decide)⟩)

/-! ## Requests without a session context -/

/-- C10: when the request context has no `user_id`, `GetProfileHandler`,
`UpdateProfileHandler` and `CLIAuthHandler` each answer 401 with an empty
effect list (no store call, no token signed) and the store as it was; and
`CLIAuthHandler` answers 401 in the same way when `user_id` is present and
`username` is absent. -/
theorem missing_context_401 (env : Env) (s : Sched) (clock : Nat → Time) (db : DB)
    (username : Option String) (userID : Int) (body : Payload) :
    GetProfileHandler s db ⟨none, username⟩ =
      ⟨401, .error "User not found in context", db, []⟩ ∧
    UpdateProfileHandler env s db ⟨none, username⟩ body =
      ⟨401, .error "User not found in context", db, []⟩ ∧
    CLIAuthHandler env clock db ⟨none, username⟩ =
      ⟨401, .error "User not found in context", db, []⟩ ∧
    CLIAuthHandler env clock db ⟨some userID, none⟩ =
      ⟨401, .error "Username not found in context", db, []⟩ :=
  ⟨rfl, rfl, rfl, rfl⟩

/-! ## Lifetime of CLI tokens -/

theorem NewNumericDate_add_cliLifetime (t : Time) :
    NewNumericDate (t + cliLifetime) = NewNumericDate t + cliLifetime := by
  have h : (t + cliLifetime) % 1000000000 = t % 1000000000 := by
    have : cliLifetime = 1000000000 * 2592000 := by
      simp [cliLifetime, hour]
    rw [this, Int.add_mul_emod_self_left]
  unfold NewNumericDate
  rw [h]
  ring

theorem cli_log_claims (env : Env) (clock : Nat → Time) (db : DB) (ctx : Ctx) (c : Claims)
    (hc : Effect.signCLI c ∈ (CLIAuthHandler env clock db ctx).log) :
    ∃ userID username, c = cliClaims clock userID username := by
  unfold CLIAuthHandler at hc
  cases hu : ctx.user_id with
  | none => simp [hu] at hc
  | some userID =>
    cases hn : ctx.username with
    | none => simp [hu, hn] at hc
    | some username =>
      refine ⟨userID, username, ?_⟩
      cases hs : env.SignedString (cliClaims clock userID username) with
      | error e => simpa [hu, hn, hs] using hc
      | ok tok => simpa [hu, hn, hs] using hc

/-- C8 fails as stated: when the clock advances by one second between the
handler's first and second reading, the claims that `CLIAuthHandler` signs have
an expires-at that exceeds issued-at by 30 days less one second. -/
theorem cli_lifetime_not_exact :
    (CLIAuthHandler sampleEnv tickingClock aliceDB aliceCtx).log =
      [.signCLI ⟨1, "alice", 1702592000000000000, 1700000001000000000⟩] ∧
    (1702592000000000000 : Int) ≠ 1700000001000000000 + cliLifetime := by
  constructor
  · rfl
  · decide

/-- C8, amended: every claims value that `CLIAuthHandler` signs has expires-at
equal to the first clock reading, truncated to whole seconds, plus 30 days and
issued-at equal to the second reading truncated to whole seconds; whenever the
two readings fall in the same second, expires-at is strictly after issued-at
and exceeds it by exactly 30 days (30 * 24 hours). -/
theorem cli_lifetime_same_second (env : Env) (clock : Nat → Time) (db : DB) (ctx : Ctx)
    (c : Claims) (hc : Effect.signCLI c ∈ (CLIAuthHandler env clock db ctx).log) :
    c.ExpiresAt = NewNumericDate (clock 0) + 30 * 24 * hour ∧
    c.IssuedAt = NewNumericDate (clock 1) ∧
    (NewNumericDate (clock 0) = NewNumericDate (clock 1) →
      c.IssuedAt < c.ExpiresAt ∧ c.ExpiresAt = c.IssuedAt + 30 * 24 * hour) := by
  obtain ⟨userID, username, rfl⟩ := cli_log_claims env clock db ctx c hc
  have h1 : (cliClaims clock userID username).ExpiresAt =
      NewNumericDate (clock 0) + 30 * 24 * hour :=
    NewNumericDate_add_cliLifetime (clock 0)
  have h2 : (cliClaims clock userID username).IssuedAt = NewNumericDate (clock 1) := rfl
  refine ⟨h1, h2, ?_⟩
  intro hsame
  rw [h1, h2, hsame]
  have : (0 : Int) < 30 * 24 * hour := by decide
  constructor
  · linarith
  · rfl

theorem cli_lifetime_same_second_witness :
    Effect.signCLI ⟨1, "alice", 1702592000000000000, 1700000000000000000⟩ ∈
      (CLIAuthHandler sampleEnv (fun _ => 1700000000000000000) aliceDB aliceCtx).log ∧
    (1702592000000000000 : Int) = NewNumericDate 1700000000000000000 + 30 * 24 * hour ∧
    (1700000000000000000 : Int) = NewNumericDate 1700000000000000000 ∧
    (NewNumericDate 1700000000000000000 = NewNumericDate 1700000000000000000 →
      (1700000000000000000 : Int) < 1702592000000000000 ∧
      (1702592000000000000 : Int) = 1700000000000000000 + 30 * 24 * hour) :=
  ⟨by decide,
    cli_lifetime_same_second sampleEnv (fun _ => 1700000000000000000) aliceDB aliceCtx
      ⟨1, "alice", 1702592000000000000, 1700000000000000000⟩ (by decide)⟩

/-! ## Store failures during registration -/

/-- C5 fails as stated: on the empty store the lookup for "alice" finds
nothing, another request then inserts "alice", the handler's own INSERT is
rejected by the unique constraint, and the answer is 500 "Failed to create
user", not 409. -/
theorem register_insert_conflict_not_409 :
    queryRow raceSched.queryFails
      (DB.empty.selectIdByUsernameOrEmail "alice" "alice@x.com") = .error .ErrNoRows ∧
    exec raceSched.execFails ((DB.empty.runAll raceSched.between).insertUser
      raceSched.storeNow "alice" "alice@x.com" "$2a$10$secret1") = .error .constraint ∧
    RegisterHandler sampleEnv raceSched DB.empty aliceBody =
      ⟨500, .error "Failed to create user", DB.empty.runAll raceSched.between,
        [.query, .hash, .exec]⟩ ∧
    (RegisterHandler sampleEnv raceSched DB.empty aliceBody).status ≠ 409 := by
  refine ⟨by rfl, by rfl, by rfl, by decide⟩

/-- C5, amended: a registration that passes the existence pre-check and whose
INSERT is then rejected by the unique constraint of the store is answered 500
"Failed to create user"; the handler adds no row to the store it found at
insert time. -/
theorem register_insert_conflict_500 (env : Env) (s : Sched) (db : DB) (body : Payload)
    (req : RegisterRequest) (hashed : String)
    (hbind : bindRegister env body = .ok req)
    (hpre : queryRow s.queryFails (db.selectIdByUsernameOrEmail req.Username req.Email) =
      .error .ErrNoRows)
    (hhash : env.HashingPassword req.Password = .ok hashed)
    (hrej : exec s.execFails ((db.runAll s.between).insertUser s.storeNow req.Username
      req.Email hashed) = .error .constraint) :
    RegisterHandler env s db body =
      ⟨500, .error "Failed to create user", db.runAll s.between, [.query, .hash, .exec]⟩ := by
  simp [RegisterHandler, hbind, hpre, hhash, hrej]

theorem register_insert_conflict_500_witness :
    RegisterHandler sampleEnv raceSched DB.empty aliceBody =
      ⟨500, .error "Failed to create user", DB.empty.runAll raceSched.between,
        [.query, .hash, .exec]⟩ :=
  register_insert_conflict_500 sampleEnv raceSched DB.empty aliceBody
    ⟨"alice", "alice@x.com", "secret1"⟩ "$2a$10$secret1" (by rfl) (by rfl) (by rfl) (by rfl)

/-- C6 at its failing input: the registration lookup fails in the driver on an
empty store (no user exists at all), and `RegisterHandler` answers 409
"Username or email already exists" instead of 500. -/
theorem register_lookup_failure_409 :
    queryRow lookupDownSched.queryFails
      (DB.empty.selectIdByUsernameOrEmail "alice" "alice@x.com") = .error .driver ∧
    RegisterHandler sampleEnv lookupDownSched DB.empty aliceBody =
      ⟨409, .error "Username or email already exists", DB.empty, [.query]⟩ := by
  refine ⟨by rfl, by rfl⟩

/-- Every other store or hashing failure of the four handlers is answered 500:
the login lookup, the profile lookup (a missing row included), the profile
update, the registration insert and the registration hashing. -/
theorem other_failures_500 (env : Env) (s : Sched) (db : DB) (body : Payload) (ctx : Ctx)
    (userID : Int) (hctx : ctx.user_id = some userID) :
    (∀ req e, bindLogin body = .ok req →
      queryRow s.queryFails (db.selectByUsername req.Username) = .error e →
      e ≠ .ErrNoRows → (LoginHandler env s db body).status = 500) ∧
    (∀ e, queryRow s.queryFails (db.selectById userID) = .error e →
      (GetProfileHandler s db ctx).status = 500) ∧
    (∀ email e, bindUpdateProfile env body = .ok email →
      exec s.execFails (db.updateEmail s.storeNow email userID) = .error e →
      (UpdateProfileHandler env s db ctx body).status = 500) ∧
    (∀ req e, bindRegister env body = .ok req →
      queryRow s.queryFails (db.selectIdByUsernameOrEmail req.Username req.Email) =
        .error .ErrNoRows →
      env.HashingPassword req.Password = .error e →
      (RegisterHandler env s db body).status = 500) ∧
    (∀ req hashed e, bindRegister env body = .ok req →
      queryRow s.queryFails (db.selectIdByUsernameOrEmail req.Username req.Email) =
        .error .ErrNoRows →
      env.HashingPassword req.Password = .ok hashed →
      exec s.execFails ((db.runAll s.between).insertUser s.storeNow req.Username req.Email
        hashed) = .error e →
      (RegisterHandler env s db body).status = 500) := by
  refine ⟨?_, ?_, ?_, ?_, ?_⟩
  · intro req e hb hq hne
    cases e with
    | ErrNoRows => exact absurd rfl hne
    | constraint => simp [LoginHandler, hb, hq]
    | full => simp [LoginHandler, hb, hq]
    | driver => simp [LoginHandler, hb, hq]
  · intro e hq
    simp [GetProfileHandler, hctx, hq]
  · intro email e hb hx
    simp [UpdateProfileHandler, hctx, hb, hx]
  · intro req e hb hq hh
    simp [RegisterHandler, hb, hq, hh]
  · intro req hashed e hb hq hh hx
    simp [RegisterHandler, hb, hq, hh, hx]

/-! ## Registration followed by login -/

theorem required_of_length {n : Nat} (str : String) (hn : 0 < n) (h : n ≤ str.length) :
    required str = true := by
  have : str ≠ "" := by
    intro he
    subst he
    simp at h
    omega
  simp [required, this]

theorem bindLogin_ok (fs : List (String × String))
    (hu : required (Payload.field fs "username") = true)
    (hp : required (Payload.field fs "password") = true) :
    bindLogin (.object fs) = .ok ⟨Payload.field fs "username", Payload.field fs "password"⟩ := by
  simp [bindLogin, checkField, hu, hp]

theorem insertUser_ok_inv (db db1 : DB) (now : Time) (u e p : String) (id : Int)
    (h : db.insertUser now u e p = .ok (id, db1)) :
    db.nextRowid = some id ∧ (∀ r ∈ db.users, r.username ≠ u ∧ r.email ≠ e) ∧
    db1 = ⟨db.users ++ [⟨id, u, e, p, now, now⟩], id⟩ := by
  unfold DB.insertUser at h
  cases hn : db.nextRowid with
  | none => simp [hn] at h
  | some id0 =>
    simp only [hn] at h
    by_cases hc : ∃ r ∈ db.users, r.username = u ∨ r.email = e
    · simp [hc] at h
    · rw [if_neg hc] at h
      injection h with h
      injection h with h1 h2
      subst h1
      subst h2
      refine ⟨rfl, ?_, rfl⟩
      intro r hr
      constructor
      · intro hu
        exact hc ⟨r, hr, Or.inl hu⟩
      · intro he
        exact hc ⟨r, hr, Or.inr he⟩

theorem selectIdByUsernameOrEmail_fresh (db : DB) (u e : String)
    (h : ∀ r ∈ db.users, r.username ≠ u ∧ r.email ≠ e) :
    db.selectIdByUsernameOrEmail u e = none := by
  unfold DB.selectIdByUsernameOrEmail
  have : db.users.find? (fun r => decide (r.username = u ∨ r.email = e)) = none := by
    rw [List.find?_eq_none]
    intro r hr
    have := h r hr
    simp [this.1, this.2]
  rw [this]
  rfl

theorem selectByUsername_appended (users : List UserRow) (seq : Int) (row : UserRow)
    (h : ∀ r ∈ users, r.username ≠ row.username) :
    DB.selectByUsername ⟨users ++ [row], seq⟩ row.username = some row := by
  unfold DB.selectByUsername
  have hn : users.find? (fun r => decide (r.username = row.username)) = none := by
    rw [List.find?_eq_none]
    intro r hr
    simpa using h r hr
  simp [List.find?_append, hn]

/-- C3: on any store, a registration with a username of 3 to 50 characters, a
non-empty e-mail the validator accepts and a password of at least 6 characters,
none of username and e-mail used by an existing user, is answered 201, and a
login on the resulting store with the same username and password is answered
200 with the user id the registration returned; assuming that the store does
not fail (neither lookup fails in the driver and the INSERT is not refused),
that the token signer does not fail, and that hashing the password succeeds
with a hash that verifies against it. -/
theorem register_then_login (env : Env) (s s2 : Sched) (db : DB)
    (fs fs2 : List (String × String)) (u e p : String)
    (hfu : Payload.field fs "username" = u) (hfe : Payload.field fs "email" = e)
    (hfp : Payload.field fs "password" = p)
    (hlu : Payload.field fs2 "username" = u) (hlp : Payload.field fs2 "password" = p)
    (hu3 : 3 ≤ u.length) (hu50 : u.length ≤ 50)
    (he : e ≠ "" ∧ env.validEmail e = true) (hp : 6 ≤ p.length)
    (hfresh : ∀ r ∈ db.users, r.username ≠ u ∧ r.email ≠ e)
    (hstore : s.queryFails = false ∧ s2.queryFails = false ∧
      ∀ hashed, ∃ v, exec s.execFails
        ((db.runAll s.between).insertUser s.storeNow u e hashed) = .ok v)
    (hsign : ∀ user, ∃ t, env.GenerateTokens user = .ok t)
    (hhash : ∃ h, env.HashingPassword p = .ok h ∧ env.ComparePassword h p = true) :
    ∃ tok ref user tok2 ref2 user2,
      (RegisterHandler env s db (.object fs)).status = 201 ∧
      (RegisterHandler env s db (.object fs)).body = .auth tok ref user ∧
      (LoginHandler env s2 (RegisterHandler env s db (.object fs)).db (.object fs2)).status
        = 200 ∧
      (LoginHandler env s2 (RegisterHandler env s db (.object fs)).db (.object fs2)).body
        = .auth tok2 ref2 user2 ∧
      user2.ID = user.ID := by
  obtain ⟨hq, hq2, hinsert⟩ := hstore
  obtain ⟨hashed, hh, hc⟩ := hhash
  obtain ⟨⟨id, db2⟩, hx⟩ := hinsert hashed
  obtain ⟨_, hfresh1, hdb2⟩ := insertUser_ok_inv _ _ _ _ _ _ _ (exec_ok _ _ _ hx)
  have hru : required u = true := required_of_length u (by decide) hu3
  have hrp : required p = true := required_of_length p (by decide) hp
  have hvalid : validRegister env (Payload.field fs "username") (Payload.field fs "email")
      (Payload.field fs "password") = true := by
    have hre : required e = true := by simp [required, he.1]
    rw [hfu, hfe, hfp]
    simp [validRegister, hru, hrp, hre, minLen, maxLen, hu3, hu50, hp, he.2]
  have hbind := bindRegister_ok env fs hvalid
  rw [hfu, hfe, hfp] at hbind
  have hbind2 : bindLogin (.object fs2) = .ok ⟨u, p⟩ := by
    have := bindLogin_ok fs2 (by rw [hlu]; exact hru) (by rw [hlp]; exact hrp)
    rw [hlu, hlp] at this
    exact this
  have hsel := selectIdByUsernameOrEmail_fresh db u e hfresh
  obtain ⟨⟨tok, ref⟩, htok⟩ := hsign ⟨id, u, e, "", zeroTime, zeroTime⟩
  have hreg : RegisterHandler env s db (.object fs) =
      ⟨201, .auth tok ref ⟨id, u, e, "", zeroTime, zeroTime⟩, db2,
        [.query, .hash, .exec, .tokens ⟨id, u, e, "", zeroTime, zeroTime⟩]⟩ := by
    simp [RegisterHandler, hbind, hsel, queryRow, hq, hh, hx, htok]
  have hlook : db2.selectByUsername u = some ⟨id, u, e, hashed, s.storeNow, s.storeNow⟩ := by
    rw [hdb2]
    exact selectByUsername_appended (db.runAll s.between).users id
      ⟨id, u, e, hashed, s.storeNow, s.storeNow⟩ (fun r hr => (hfresh1 r hr).1)
  obtain ⟨⟨tok2, ref2⟩, htok2⟩ := hsign ⟨id, u, e, "", s.storeNow, s.storeNow⟩
  refine ⟨tok, ref, ⟨id, u, e, "", zeroTime, zeroTime⟩, tok2, ref2,
    ⟨id, u, e, "", s.storeNow, s.storeNow⟩, ?_, ?_, ?_, ?_, rfl⟩
  · rw [hreg]
  · rw [hreg]
  · rw [hreg]
    simp [LoginHandler, hbind2, hlook, queryRow, hq2, hc, htok2]
  · rw [hreg]
    simp [LoginHandler, hbind2, hlook, queryRow, hq2, hc, htok2]

theorem register_then_login_witness :
    ∃ tok ref user tok2 ref2 user2,
      (RegisterHandler sampleEnv quietSched DB.empty aliceBody).status = 201 ∧
      (RegisterHandler sampleEnv quietSched DB.empty aliceBody).body = .auth tok ref user ∧
      (LoginHandler sampleEnv quietSched
        (RegisterHandler sampleEnv quietSched DB.empty aliceBody).db aliceLoginBody).status
        = 200 ∧
      (LoginHandler sampleEnv quietSched
        (RegisterHandler sampleEnv quietSched DB.empty aliceBody).db aliceLoginBody).body
        = .auth tok2 ref2 user2 ∧
      user2.ID = user.ID :=
  register_then_login sampleEnv quietSched quietSched DB.empty
    [("username", "alice"), ("email", "alice@x.com"), ("password", "secret1")]
    [("username", "alice"), ("password", "secret1")] "alice" "alice@x.com" "secret1"
    (by rfl) (by rfl) (by rfl) (by rfl) (by rfl) (by decide) (by decide)
    ⟨by decide, by rfl⟩ (by decide) (by simp [DB.empty])
    ⟨rfl, rfl, fun _ => ⟨_, rfl⟩⟩
    (fun user => ⟨_, rfl⟩) ⟨"$2a$10$secret1", rfl, by rfl⟩

/-! ## Uniqueness of usernames and e-mails -/

theorem le_foldr_max_id (l : List UserRow) (r : UserRow) (hr : r ∈ l) :
    r.id ≤ l.foldr (fun r m => max r.id m) 0 := by
  induction l with
  | nil => simp at hr
  | cons a l ih =>
    simp only [List.foldr_cons]
    rcases List.mem_cons.1 hr with h | h
    · subst h
      exact le_max_left _ _
    · exact le_trans (ih h) (le_max_right _ _)

theorem le_maxRowid (db : DB) (r : UserRow) (hr : r ∈ db.users) : r.id ≤ db.maxRowid :=
  le_foldr_max_id db.users r hr

theorem lt_nextRowid (db : DB) (id : Int) (hn : db.nextRowid = some id) (r : UserRow)
    (hr : r ∈ db.users) : r.id < id := by
  have h1 := le_maxRowid db r hr
  have h2 : db.maxRowid ≤ max db.seq db.maxRowid := le_max_right _ _
  unfold DB.nextRowid at hn
  split at hn
  · injection hn with hn
    linarith
  · exact Option.noConfusion hn

theorem insertUser_distinct (db db1 : DB) (now : Time) (u e p : String) (id : Int)
    (hd : db.Distinct) (h : db.insertUser now u e p = .ok (id, db1)) : db1.Distinct := by
  obtain ⟨hn, hfresh, hdb⟩ := insertUser_ok_inv db db1 now u e p id h
  subst hdb
  unfold DB.Distinct
  simp only
  rw [List.pairwise_append]
  refine ⟨hd, List.pairwise_singleton _ _, ?_⟩
  intro a ha b hb
  rw [List.mem_singleton] at hb
  subst hb
  exact ⟨ne_of_lt (lt_nextRowid db id hn a ha), (hfresh a ha).1, (hfresh a ha).2⟩

theorem updateEmail_distinct (db db1 : DB) (now : Time) (e : String) (id : Int)
    (hd : db.Distinct) (h : db.updateEmail now e id = .ok db1) : db1.Distinct := by
  unfold DB.updateEmail at h
  split at h
  · exact Except.noConfusion h
  · next hno =>
    injection h with h
    subst h
    unfold DB.Distinct at hd ⊢
    simp only
    have hd2 := List.Pairwise.and_mem.1 hd
    refine List.Pairwise.map _ ?_ hd2
    rintro a b ⟨ha, hb, hid, hun, hem⟩
    by_cases h1 : a.id = id <;> by_cases h2 : b.id = id
    · exact absurd (h1.trans h2.symm) hid
    · simp only [h1, h2, if_true, if_false]
      refine ⟨fun hc => h2 hc.symm, hun, ?_⟩
      intro hc
      exact hno ⟨⟨a, ha, h1⟩, ⟨b, hb, h2, hc.symm⟩⟩
    · simp only [h1, h2, if_true, if_false]
      refine ⟨h1, hun, ?_⟩
      intro hc
      exact hno ⟨⟨b, hb, h2⟩, ⟨a, ha, h1, hc⟩⟩
    · simp only [h1, h2, if_false]
      exact ⟨hid, hun, hem⟩

theorem run_distinct (db : DB) (now : Time) (st : Stmt) (hd : db.Distinct) :
    (db.run now st).Distinct := by
  cases st with
  | insertUser u e p =>
    simp only [DB.run]
    cases h : db.insertUser now u e p with
    | error err => exact hd
    | ok v =>
      obtain ⟨id, db1⟩ := v
      exact insertUser_distinct db db1 now u e p id hd h
  | updateEmail e id =>
    simp only [DB.run]
    cases h : db.updateEmail now e id with
    | error err => exact hd
    | ok db1 => exact updateEmail_distinct db db1 now e id hd h

theorem runAll_distinct (stmts : List (Time × Stmt)) (db : DB) (hd : db.Distinct) :
    (db.runAll stmts).Distinct := by
  induction stmts generalizing db with
  | nil => exact hd
  | cons a rest ih =>
    obtain ⟨t, st⟩ := a
    exact ih (db.run t st) (run_distinct db t st hd)

/-- The store `RegisterHandler` returns is the one it was given, or that one
after the statements of other requests, or the latter after the handler's own
successful INSERT. -/
theorem register_db_cases (env : Env) (s : Sched) (db : DB) (body : Payload) :
    (RegisterHandler env s db body).db = db ∨
    (RegisterHandler env s db body).db = db.runAll s.between ∨
    ∃ req hashed id, bindRegister env body = .ok req ∧
      (db.runAll s.between).insertUser s.storeNow req.Username req.Email hashed =
        .ok (id, (RegisterHandler env s db body).db) := by
  cases hb : bindRegister env body with
  | error err => left; simp [RegisterHandler, hb]
  | ok req =>
    cases hq : queryRow s.queryFails (db.selectIdByUsernameOrEmail req.Username req.Email) with
    | ok v => left; simp [RegisterHandler, hb, hq]
    | error err =>
      cases err with
      | constraint => left; simp [RegisterHandler, hb, hq]
      | full => left; simp [RegisterHandler, hb, hq]
      | driver => left; simp [RegisterHandler, hb, hq]
      | ErrNoRows =>
        cases hh : env.HashingPassword req.Password with
        | error err => left; simp [RegisterHandler, hb, hq, hh]
        | ok hashed =>
          cases hx : exec s.execFails ((db.runAll s.between).insertUser s.storeNow
              req.Username req.Email hashed) with
          | error err => right; left; simp [RegisterHandler, hb, hq, hh, hx]
          | ok v =>
            obtain ⟨id, db2⟩ := v
            have hins := exec_ok _ _ _ hx
            have hdb : (RegisterHandler env s db body).db = db2 := by
              cases ht : env.GenerateTokens
                  ⟨id, req.Username, req.Email, "", zeroTime, zeroTime⟩ with
              | error err => simp [RegisterHandler, hb, hq, hh, hx, ht]
              | ok t => simp [RegisterHandler, hb, hq, hh, hx, ht]
            right; right
            rw [hdb]
            exact ⟨req, hashed, id, rfl, hins⟩

/-- The store `UpdateProfileHandler` returns is the one it was given, or that
one after the handler's successful UPDATE for the caller's id. -/
theorem updateProfile_db_cases (env : Env) (s : Sched) (db : DB) (ctx : Ctx) (body : Payload) :
    (UpdateProfileHandler env s db ctx body).db = db ∨
    ∃ email userID, ctx.user_id = some userID ∧
      db.updateEmail s.storeNow email userID =
        .ok (UpdateProfileHandler env s db ctx body).db := by
  cases hu : ctx.user_id with
  | none => left; simp [UpdateProfileHandler, hu]
  | some userID =>
    cases hb : bindUpdateProfile env body with
    | error err => left; simp [UpdateProfileHandler, hu, hb]
    | ok email =>
      cases hx : exec s.execFails (db.updateEmail s.storeNow email userID) with
      | error err => left; simp [UpdateProfileHandler, hu, hb, hx]
      | ok db1 =>
        right
        have hdb : (UpdateProfileHandler env s db ctx body).db = db1 := by
          simp [UpdateProfileHandler, hu, hb, hx]
        rw [hdb]
        exact ⟨email, userID, rfl, exec_ok _ _ _ hx⟩

theorem apply_distinct (db : DB) (c : Call) (hd : db.Distinct) : (Call.apply db c).Distinct := by
  cases c with
  | register env s body =>
    show (RegisterHandler env s db body).db.Distinct
    rcases register_db_cases env s db body with h | h | ⟨req, hashed, id, _, h⟩
    · rw [h]; exact hd
    · rw [h]; exact runAll_distinct s.between db hd
    · exact insertUser_distinct _ _ _ _ _ _ _ (runAll_distinct s.between db hd) h
  | updateProfile env s ctx body =>
    show (UpdateProfileHandler env s db ctx body).db.Distinct
    rcases updateProfile_db_cases env s db ctx body with h | ⟨email, userID, _, h⟩
    · rw [h]; exact hd
    · exact updateEmail_distinct _ _ _ _ _ hd h

theorem runCalls_distinct (calls : List Call) (db : DB) (hd : db.Distinct) :
    (runCalls db calls).Distinct := by
  induction calls generalizing db with
  | nil => exact hd
  | cons c rest ih => exact ih (Call.apply db c) (apply_distinct db c hd)

/-- C4: in every store reached from the empty store by a sequence of
`RegisterHandler` and `UpdateProfileHandler` calls (with any collaborators,
any driver failures and any writes of other requests interleaved), no two
distinct user rows share a username and no two share an e-mail. -/
theorem users_unique_in_reachable_stores (calls : List Call) :
    (runCalls DB.empty calls).users.Pairwise
      (fun a b => a.username ≠ b.username ∧ a.email ≠ b.email) := by
  have h : (runCalls DB.empty calls).Distinct :=
    runCalls_distinct calls DB.empty List.Pairwise.nil
  exact List.Pairwise.imp (fun hab => hab.2) h

/-! ## Existing credentials are never changed -/

theorem kept_refl (db : DB) : db.Kept db :=
  fun r hr => ⟨r, hr, rfl, rfl, rfl⟩

theorem kept_trans {a b c : DB} (hab : a.Kept b) (hbc : b.Kept c) : a.Kept c := by
  intro r hr
  obtain ⟨r2, hr2, h1, h2, h3⟩ := hab r hr
  obtain ⟨r3, hr3, k1, k2, k3⟩ := hbc r2 hr2
  exact ⟨r3, hr3, k1.trans h1, k2.trans h2, k3.trans h3⟩

theorem insertUser_users (db db1 : DB) (now : Time) (u e p : String) (id : Int)
    (h : db.insertUser now u e p = .ok (id, db1)) :
    db1.users = db.users ++ [⟨id, u, e, p, now, now⟩] := by
  rw [(insertUser_ok_inv db db1 now u e p id h).2.2]

theorem insertUser_kept (db db1 : DB) (now : Time) (u e p : String) (id : Int)
    (h : db.insertUser now u e p = .ok (id, db1)) : db.Kept db1 := by
  intro r hr
  rw [insertUser_users db db1 now u e p id h]
  exact ⟨r, List.mem_append_left _ hr, rfl, rfl, rfl⟩

theorem updateEmail_users (db db1 : DB) (now : Time) (e : String) (id : Int)
    (h : db.updateEmail now e id = .ok db1) :
    db1.users = db.users.map (fun r => if r.id = id then
      ⟨r.id, r.username, e, r.password, r.created_at, now⟩ else r) := by
  unfold DB.updateEmail at h
  split at h
  · exact Except.noConfusion h
  · injection h with h
    subst h
    rfl

theorem updateEmail_kept (db db1 : DB) (now : Time) (e : String) (id : Int)
    (h : db.updateEmail now e id = .ok db1) : db.Kept db1 := by
  intro r hr
  rw [updateEmail_users db db1 now e id h]
  refine ⟨_, List.mem_map_of_mem _ hr, ?_⟩
  by_cases hid : r.id = id
  · simp [hid]
  · simp [hid]

theorem run_kept (db : DB) (now : Time) (st : Stmt) : db.Kept (db.run now st) := by
  cases st with
  | insertUser u e p =>
    simp only [DB.run]
    cases h : db.insertUser now u e p with
    | error err => exact kept_refl db
    | ok v =>
      obtain ⟨id, db1⟩ := v
      exact insertUser_kept db db1 now u e p id h
  | updateEmail e id =>
    simp only [DB.run]
    cases h : db.updateEmail now e id with
    | error err => exact kept_refl db
    | ok db1 => exact updateEmail_kept db db1 now e id h

theorem runAll_kept (stmts : List (Time × Stmt)) (db : DB) : db.Kept (db.runAll stmts) := by
  induction stmts generalizing db with
  | nil => exact kept_refl db
  | cons a rest ih =>
    obtain ⟨t, st⟩ := a
    exact kept_trans (run_kept db t st) (ih (db.run t st))

theorem login_db (env : Env) (s : Sched) (db : DB) (body : Payload) :
    (LoginHandler env s db body).db = db := by
  cases hb : bindLogin body with
  | error err => simp [LoginHandler, hb]
  | ok req =>
    cases hq : queryRow s.queryFails (db.selectByUsername req.Username) with
    | error err => cases err <;> simp [LoginHandler, hb, hq]
    | ok row =>
      cases hc : env.ComparePassword row.password req.Password with
      | false => simp [LoginHandler, hb, hq, hc]
      | true =>
        cases ht : env.GenerateTokens
            ⟨row.id, row.username, row.email, "", row.created_at, row.updated_at⟩ with
        | error err => simp [LoginHandler, hb, hq, hc, ht]
        | ok t => simp [LoginHandler, hb, hq, hc, ht]

theorem getProfile_db (s : Sched) (db : DB) (ctx : Ctx) :
    (GetProfileHandler s db ctx).db = db := by
  cases hu : ctx.user_id with
  | none => simp [GetProfileHandler, hu]
  | some userID =>
    cases hq : queryRow s.queryFails (db.selectById userID) with
    | error err => simp [GetProfileHandler, hu, hq]
    | ok row => simp [GetProfileHandler, hu, hq]

theorem cliAuth_db (env : Env) (clock : Nat → Time) (db : DB) (ctx : Ctx) :
    (CLIAuthHandler env clock db ctx).db = db := by
  cases hu : ctx.user_id with
  | none => simp [CLIAuthHandler, hu]
  | some userID =>
    cases hn : ctx.username with
    | none => simp [CLIAuthHandler, hu, hn]
    | some username =>
      cases hs : env.SignedString (cliClaims clock userID username) with
      | error err => simp [CLIAuthHandler, hu, hn, hs]
      | ok tok => simp [CLIAuthHandler, hu, hn, hs]

/-- C9: no handler of the authentication core changes or removes an existing
credential. After `RegisterHandler` every row present before is still present
with its id, username and password hash, and the handler itself only appends
to the store it found at insert time; `LoginHandler`, `GetProfileHandler`,
`CLIAuthHandler` and `RefreshTokenHandler` return the store as it was; after
`UpdateProfileHandler` the table has the same rows in the same order, each
with its id, username, password hash and creation time, and every row whose id
is not the caller's `user_id` is unchanged (only e-mail and updated-at of the
caller's row can differ). -/
theorem credentials_preserved (env : Env) (s : Sched) (clock : Nat → Time) (db : DB)
    (ctx : Ctx) (body : Payload) :
    (∀ r ∈ db.users, ∃ r2 ∈ (RegisterHandler env s db body).db.users,
      r2.id = r.id ∧ r2.username = r.username ∧ r2.password = r.password) ∧
    ((RegisterHandler env s db body).db = db ∨
      ∃ added, (RegisterHandler env s db body).db.users =
        (db.runAll s.between).users ++ added) ∧
    (LoginHandler env s db body).db = db ∧
    (GetProfileHandler s db ctx).db = db ∧
    (CLIAuthHandler env clock db ctx).db = db ∧
    (RefreshTokenHandler db).db = db ∧
    List.Forall₂ (fun r r2 => r2.id = r.id ∧ r2.username = r.username ∧
        r2.password = r.password ∧ r2.created_at = r.created_at ∧
        (ctx.user_id ≠ some r.id → r2 = r))
      db.users (UpdateProfileHandler env s db ctx body).db.users := by
  refine ⟨?_, ?_, login_db env s db body, getProfile_db s db ctx,
    cliAuth_db env clock db ctx, rfl, ?_⟩
  · rcases register_db_cases env s db body with h | h | ⟨req, hashed, id, _, h⟩
    · rw [h]; exact kept_refl db
    · rw [h]; exact runAll_kept s.between db
    · exact kept_trans (runAll_kept s.between db) (insertUser_kept _ _ _ _ _ _ _ h)
  · rcases register_db_cases env s db body with h | h | ⟨req, hashed, id, _, h⟩
    · exact Or.inl h
    · exact Or.inr ⟨[], by rw [h, List.append_nil]⟩
    · exact Or.inr ⟨_, insertUser_users _ _ _ _ _ _ _ h⟩
  · rcases updateProfile_db_cases env s db ctx body with h | ⟨email, userID, hu, h⟩
    · rw [h, List.forall₂_same]
      intro r _
      exact ⟨rfl, rfl, rfl, rfl, fun _ => rfl⟩
    · rw [updateEmail_users _ _ _ _ _ h, List.forall₂_map_right_iff, List.forall₂_same]
      intro r _
      by_cases hid : r.id = userID
      · simp [hid, hu]
      · simp [hid]

/-! ## The user value in responses -/

theorem register_created_body (env : Env) (s : Sched) (db : DB) (body : Payload)
    (h : (RegisterHandler env s db body).status = 201) :
    ∃ (tok ref : String) (id : Int) (req : RegisterRequest),
      (RegisterHandler env s db body).body =
        .auth tok ref ⟨id, req.Username, req.Email, "", zeroTime, zeroTime⟩ := by
  cases hb : bindRegister env body with
  | error err => simp [RegisterHandler, hb] at h
  | ok req =>
    cases hq : queryRow s.queryFails (db.selectIdByUsernameOrEmail req.Username req.Email) with
    | ok v => simp [RegisterHandler, hb, hq] at h
    | error err =>
      cases err with
      | constraint => simp [RegisterHandler, hb, hq] at h
      | full => simp [RegisterHandler, hb, hq] at h
      | driver => simp [RegisterHandler, hb, hq] at h
      | ErrNoRows =>
        cases hh : env.HashingPassword req.Password with
        | error err => simp [RegisterHandler, hb, hq, hh] at h
        | ok hashed =>
          cases hx : exec s.execFails ((db.runAll s.between).insertUser s.storeNow
              req.Username req.Email hashed) with
          | error err => simp [RegisterHandler, hb, hq, hh, hx] at h
          | ok v =>
            obtain ⟨id, db2⟩ := v
            cases ht : env.GenerateTokens
                ⟨id, req.Username, req.Email, "", zeroTime, zeroTime⟩ with
            | error err => simp [RegisterHandler, hb, hq, hh, hx, ht] at h
            | ok t =>
              obtain ⟨tok, ref⟩ := t
              exact ⟨tok, ref, id, req, by simp [RegisterHandler, hb, hq, hh, hx, ht]⟩

theorem login_ok_body (env : Env) (s : Sched) (db : DB) (body : Payload)
    (h : (LoginHandler env s db body).status = 200) :
    ∃ (tok ref : String) (row : UserRow), (LoginHandler env s db body).body =
      .auth tok ref ⟨row.id, row.username, row.email, "", row.created_at, row.updated_at⟩ := by
  cases hb : bindLogin body with
  | error err => simp [LoginHandler, hb] at h
  | ok req =>
    cases hq : queryRow s.queryFails (db.selectByUsername req.Username) with
    | error err => cases err <;> simp [LoginHandler, hb, hq] at h
    | ok row =>
      cases hc : env.ComparePassword row.password req.Password with
      | false => simp [LoginHandler, hb, hq, hc] at h
      | true =>
        cases ht : env.GenerateTokens
            ⟨row.id, row.username, row.email, "", row.created_at, row.updated_at⟩ with
        | error err => simp [LoginHandler, hb, hq, hc, ht] at h
        | ok t =>
          obtain ⟨tok, ref⟩ := t
          exact ⟨tok, ref, row, by simp [LoginHandler, hb, hq, hc, ht]⟩

/-- C11: the body of every 201 answer of `RegisterHandler` and of every 200
answer of `LoginHandler` is an authentication response whose user has an empty
`Password` field; the serialised user has exactly the keys id, username,
email, created_at and updated_at, and is the same whatever the `Password`
field holds. -/
theorem response_user_without_password (env : Env) (s s2 : Sched) (db db2 : DB)
    (body body2 : Payload) :
    ((RegisterHandler env s db body).status = 201 →
      ∃ tok ref user, (RegisterHandler env s db body).body = .auth tok ref user ∧
        user.Password = "" ∧
        (marshalUser user).map Prod.fst =
          ["id", "username", "email", "created_at", "updated_at"] ∧
        ∀ pw, marshalUser ⟨user.ID, user.Username, user.Email, pw, user.CreatedAt,
          user.UpdatedAt⟩ = marshalUser user) ∧
    ((LoginHandler env s2 db2 body2).status = 200 →
      ∃ tok ref user, (LoginHandler env s2 db2 body2).body = .auth tok ref user ∧
        user.Password = "" ∧
        (marshalUser user).map Prod.fst =
          ["id", "username", "email", "created_at", "updated_at"] ∧
        ∀ pw, marshalUser ⟨user.ID, user.Username, user.Email, pw, user.CreatedAt,
          user.UpdatedAt⟩ = marshalUser user) := by
  constructor
  · intro h
    obtain ⟨tok, ref, id, req, hbody⟩ := register_created_body env s db body h
    exact ⟨tok, ref, _, hbody, rfl, rfl, fun _ => rfl⟩
  · intro h
    obtain ⟨tok, ref, row, hbody⟩ := login_ok_body env s2 db2 body2 h
    exact ⟨tok, ref, _, hbody, rfl, rfl, fun _ => rfl⟩

theorem response_user_without_password_witness :
    (RegisterHandler sampleEnv quietSched DB.empty aliceBody).status = 201 ∧
    (LoginHandler sampleEnv quietSched aliceDB aliceLoginBody).status = 200 ∧
    (∃ tok ref user,
      (RegisterHandler sampleEnv quietSched DB.empty aliceBody).body = .auth tok ref user ∧
        user.Password = "" ∧
        (marshalUser user).map Prod.fst =
          ["id", "username", "email", "created_at", "updated_at"] ∧
        ∀ pw, marshalUser ⟨user.ID, user.Username, user.Email, pw, user.CreatedAt,
          user.UpdatedAt⟩ = marshalUser user) ∧
    (∃ tok ref user,
      (LoginHandler sampleEnv quietSched aliceDB aliceLoginBody).body = .auth tok ref user ∧
        user.Password = "" ∧
        (marshalUser user).map Prod.fst =
          ["id", "username", "email", "created_at", "updated_at"] ∧
        ∀ pw, marshalUser ⟨user.ID, user.Username, user.Email, pw, user.CreatedAt,
          user.UpdatedAt⟩ = marshalUser user) :=
  ⟨by rfl, by rfl,
    (response_user_without_password sampleEnv quietSched quietSched DB.empty aliceDB
      aliceBody aliceLoginBody).1 (by rfl),
    (response_user_without_password sampleEnv quietSched quietSched DB.empty aliceDB
      aliceBody aliceLoginBody).2 (by rfl)⟩

/-! ## The refresh endpoint -/

/-- C12: `RefreshTokenHandler` answers 501 with body error "Refresh token not
implemented yet" on every store, performs no effect and returns the store as
it was; so does the `auth` group for route refresh, whatever the request body,
the collaborators and the behaviour of the store. -/
theorem refresh_is_constant (env : Env) (s : Sched) (db : DB) (body : Payload) :
    RefreshTokenHandler db =
      ⟨501, .error "Refresh token not implemented yet", db, []⟩ ∧
    serveAuth env s db body .refresh =
      ⟨501, .error "Refresh token not implemented yet", db, []⟩ :=
  ⟨rfl, rfl⟩

/-! ## Mock grading -/

theorem processSubmission_ignores_code (Unmarshal : String → Option TestCases)
    (queryFails : Bool) (t : Tables) (code language code2 language2 : String)
    (challengeID : Int) :
    processSubmission Unmarshal queryFails t code language challengeID =
      processSubmission Unmarshal queryFails t code2 language2 challengeID :=
  rfl

/-- C13: whenever the lookup of the challenge's `test_cases` succeeds and the
text decodes as a list of string-to-string objects (the empty list included),
`processSubmission` returns status "passed", score 100 and output "All tests
passed! Great job!" without reaching the division; and on every input its
result is the same for any two code strings and any two languages. -/
theorem processSubmission_always_passes (Unmarshal : String → Option TestCases)
    (queryFails : Bool) (t : Tables) (code language code2 language2 : String)
    (challengeID : Int) (testCasesJSON : String) (testCases : TestCases)
    (hload : queryRow queryFails (t.selectTestCases challengeID) = .ok testCasesJSON)
    (hparse : Unmarshal testCasesJSON = some testCases) :
    processSubmission Unmarshal queryFails t code language challengeID =
      .ok ("passed", 100, "All tests passed! Great job!") ∧
    processSubmission Unmarshal queryFails t code2 language2 challengeID =
      processSubmission Unmarshal queryFails t code language challengeID := by
  constructor
  · simp [processSubmission, hload, hparse]
  · rfl

theorem processSubmission_always_passes_witness :
    queryRow false (sampleTables.selectTestCases 2) = .ok "[]" ∧
    sampleUnmarshal "[]" = some [] ∧
    processSubmission sampleUnmarshal false sampleTables "return 0" "go" 2 =
      .ok ("passed", 100, "All tests passed! Great job!") ∧
    processSubmission sampleUnmarshal false sampleTables "syntax error (" "cobol" 2 =
      processSubmission sampleUnmarshal false sampleTables "return 0" "go" 2 :=
  ⟨by rfl, by rfl,
    processSubmission_always_passes sampleUnmarshal false sampleTables "return 0" "go"
      "syntax error (" "cobol" 2 "[]" [] (by rfl) (by rfl)⟩

/-! ## Reading a submission -/

theorem selectSubmission_some (t : Tables) (id userID : Int) (row : SubmissionRow)
    (h : t.selectSubmission id userID = some row) :
    row ∈ t.submissions ∧ row.id = id ∧ row.user_id = userID := by
  unfold Tables.selectSubmission at h
  refine ⟨List.mem_of_find?_eq_some h, ?_⟩
  simpa using List.find?_some h

theorem selectSubmission_none (t : Tables) (id userID : Int)
    (h : ∀ r ∈ t.submissions, r.id = id → r.user_id ≠ userID) :
    t.selectSubmission id userID = none := by
  unfold Tables.selectSubmission
  rw [List.find?_eq_none]
  intro r hr
  simpa using h r hr

theorem queryRow_ok {α : Type} (fails : Bool) (r : Option α) (a : α)
    (h : queryRow fails r = .ok a) : r = some a := by
  cases fails
  · cases r with
    | none => simp [queryRow] at h
    | some b => simpa [queryRow] using h
  · simp [queryRow] at h

theorem getSubmission_ok_row (queryFails : Bool) (t : Tables) (ctx : Ctx) (idParam : String)
    (h : (GetSubmissionHandler queryFails t ctx idParam).status = 200) :
    ∃ (id userID : Int) (row : SubmissionRow), Atoi idParam = some id ∧
      ctx.user_id = some userID ∧ t.selectSubmission id userID = some row ∧
      (GetSubmissionHandler queryFails t ctx idParam).body =
        .submission ⟨row.id, row.user_id, row.challenge_id, row.code, row.language,
          row.status, row.score, row.output, row.created_at⟩ := by
  cases ha : Atoi idParam with
  | none => simp [GetSubmissionHandler, ha] at h
  | some id =>
    cases hu : ctx.user_id with
    | none => simp [GetSubmissionHandler, ha, hu] at h
    | some userID =>
      cases hq : queryRow queryFails (t.selectSubmission id userID) with
      | error err => cases err <;> simp [GetSubmissionHandler, ha, hu, hq] at h
      | ok row =>
        exact ⟨id, userID, row, rfl, rfl, queryRow_ok _ _ _ hq,
          by simp [GetSubmissionHandler, ha, hu, hq]⟩

/-- C14: a 200 answer of `GetSubmissionHandler` carries a stored submission
whose id is the requested id and whose user_id is the requester's `user_id`;
and, when the lookup does not fail in the driver, a request for a submission
that exists but belongs to other users only gets 404 "Submission not found",
the very answer given when no submission has the requested id. -/
theorem own_submissions_only (queryFails : Bool) (t t2 : Tables) (ctx : Ctx)
    (idParam : String) (id userID : Int) (username : Option String) :
    ((GetSubmissionHandler queryFails t ctx idParam).status = 200 →
      ∃ sub, (GetSubmissionHandler queryFails t ctx idParam).body = .submission sub ∧
        Atoi idParam = some sub.ID ∧ ctx.user_id = some sub.UserID ∧
        ∃ row ∈ t.submissions, sub = ⟨row.id, row.user_id, row.challenge_id, row.code,
          row.language, row.status, row.score, row.output, row.created_at⟩) ∧
    (Atoi idParam = some id →
      (∃ r ∈ t.submissions, r.id = id) →
      (∀ r ∈ t.submissions, r.id = id → r.user_id ≠ userID) →
      (∀ r ∈ t2.submissions, r.id ≠ id) →
      GetSubmissionHandler false t ⟨some userID, username⟩ idParam =
        ⟨404, .error "Submission not found", [.query]⟩ ∧
      GetSubmissionHandler false t2 ⟨some userID, username⟩ idParam =
        GetSubmissionHandler false t ⟨some userID, username⟩ idParam) := by
  constructor
  · intro h
    obtain ⟨id0, uid0, row, ha, hu, hsel, hbody⟩ :=
      getSubmission_ok_row queryFails t ctx idParam h
    obtain ⟨hmem, hid, huid⟩ := selectSubmission_some t id0 uid0 row hsel
    refine ⟨_, hbody, ?_, ?_, row, hmem, rfl⟩
    · rw [ha, hid]
    · rw [hu, huid]
  · intro ha _ hother hnone
    have h1 := selectSubmission_none t id userID hother
    have h2 := selectSubmission_none t2 id userID
      (fun r hr hid => absurd hid (hnone r hr))
    have e1 : GetSubmissionHandler false t ⟨some userID, username⟩ idParam =
        ⟨404, .error "Submission not found", [.query]⟩ := by
      simp [GetSubmissionHandler, ha, h1, queryRow]
    have e2 : GetSubmissionHandler false t2 ⟨some userID, username⟩ idParam =
        ⟨404, .error "Submission not found", [.query]⟩ := by
      simp [GetSubmissionHandler, ha, h2, queryRow]
    rw [e1, e2]
    exact ⟨rfl, rfl⟩

theorem own_submissions_only_witness :
    (GetSubmissionHandler false sampleTables aliceCtx "1").status = 200 ∧
    (∃ sub, (GetSubmissionHandler false sampleTables aliceCtx "1").body = .submission sub ∧
        Atoi "1" = some sub.ID ∧ aliceCtx.user_id = some sub.UserID ∧
        ∃ row ∈ sampleTables.submissions, sub = ⟨row.id, row.user_id, row.challenge_id,
          row.code, row.language, row.status, row.score, row.output, row.created_at⟩) ∧
    Atoi "2" = some 2 ∧
    (∃ r ∈ sampleTables.submissions, r.id = 2) ∧
    (∀ r ∈ sampleTables.submissions, r.id = 2 → r.user_id ≠ 1) ∧
    (∀ r ∈ (⟨[], []⟩ : Tables).submissions, r.id ≠ 2) ∧
    GetSubmissionHandler false sampleTables ⟨some 1, some "alice"⟩ "2" =
      ⟨404, .error "Submission not found", [.query]⟩ ∧
    GetSubmissionHandler false ⟨[], []⟩ ⟨some 1, some "alice"⟩ "2" =
      GetSubmissionHandler false sampleTables ⟨some 1, some "alice"⟩ "2" :=
  ⟨by rfl,
    (own_submissions_only false sampleTables ⟨[], []⟩ aliceCtx "1" 2 1 (some "alice")).1
      (by rfl),
    by rfl, by decide, by decide, by simp,
    (own_submissions_only false sampleTables ⟨[], []⟩ aliceCtx "2" 2 1 (some "alice")).2
      (by rfl) (by decide) (by decide) (by simp)⟩

end CodeLearn
